import Mathlib

/-!
Shallow embedding of the interview session manager of the
Interview-Coach repository: the `AIRecruiter` conversation engine
(src/LLM/recruiter_core.py) and the HTTP session registry endpoints
(src/LLM/main.py).  The external Ollama host is modelled by an explicit
`HostOutcome` input to every operation that performs a chat call.
-/

set_option maxHeartbeats 1000000
set_option maxRecDepth 8000

/-- Speaker role of a conversation turn. -/
inductive MsgRole where
  | system
  | user
  | assistant
deriving DecidableEq, Repr

/-- One turn of the conversation history: `{"role": ..., "content": ...}`. -/
structure Message where
  role : MsgRole
  content : String
deriving DecidableEq, Repr

/-- The OLLAMA_HOST entry of CONFIG in recruiter_core.py. -/
def CONFIG_OLLAMA_HOST : String := "http://localhost:11434"

/-- The MODEL_NAME entry of CONFIG in recruiter_core.py. -/
def CONFIG_MODEL_NAME : String := "llama3.1"

/-- The `SYSTEM_PROMPT` string constant of recruiter_core.py. -/
def SYSTEM_PROMPT : String :=
"\nYou are a highly professional Senior Technical Recruiter and AI Interviewer.\n\nYour role is to conduct **mock technical interviews** for candidates based on the job role provided by the user.\nYou must act exactly like a real interviewer — professional, concise, and conversational.\nAsk one question at a time and wait for the candidate’s response before continuing.\nNever generate multiple questions at once.\nNever reveal evaluation criteria unless specifically asked.\n\nFollow these rules strictly:\n\n1. Start with a **short professional greeting** confirming the job role and begin the interview.\n2. Ask questions that progressively test the candidate’s **communication, technical depth, and problem-solving** skills.\n3. After the candidate responds, analyze their answer briefly (in one line) and continue with the **next relevant question**.\n4. Maintain a **neutral, respectful, and realistic tone** — no emojis, no friendly chatter.\n5. End the interview politely after around 6–8 exchanges or when the candidate indicates completion (e.g., the user types \x27END INTERVIEW\x27).\n6. **Do not** show explanations, system notes, or instructions to the user.\n"

/-- The seed turn every engine starts with. -/
def systemMessage : Message := ⟨MsgRole.system, SYSTEM_PROMPT⟩

/-- Outcome of one call to `self.client.chat`: either the chat call returns and
the content field of its message is extracted as `content` (the empty
string standing for a missing/empty, i.e. falsy, content), or
`ollama.exceptions.RequestError` is raised, or some other exception is raised. -/
inductive HostOutcome where
  | success (content : String)
  | requestError (e : String)
  | otherError (e : String)
deriving DecidableEq, Repr

/-- A host call counts as failed when it raises, or when the extracted content
is empty/missing (the `else` branch of `_get_response`). -/
def HostOutcome.isFailure : HostOutcome → Bool
  | .success c => c == ""
  | .requestError _ => true
  | .otherError _ => true

/-- State of one `AIRecruiter` instance: host, model and the mutable
`conversation_history` list. -/
structure AIRecruiter where
  host : String
  model : String
  conversation_history : List Message
deriving DecidableEq, Repr

/-- `AIRecruiter.__init__`: stores host and model and seeds the history with
the system instruction. -/
def AIRecruiter.init (host model : String) : AIRecruiter :=
  { host := host, model := model, conversation_history := [systemMessage] }

/-- `AIRecruiter._get_response`: calls the host on the current history; on a
truthy content, appends it as an assistant turn and returns it; otherwise
returns one of the three error strings without touching the history. -/
def AIRecruiter.getResponse (r : AIRecruiter) (o : HostOutcome) :
    AIRecruiter × String :=
  match o with
  | .success content =>
      if content ≠ "" then
        ({ r with conversation_history :=
              r.conversation_history ++ [⟨MsgRole.assistant, content⟩] },
         content)
      else
        (r, "Error: Received an empty or malformed response from the LLM.")
  | .requestError e =>
      (r, "Error connecting to Ollama or processing request: " ++
          (e ++ (". Please ensure Ollama is running at " ++
          (r.host ++ (" and the model \x27" ++
          (r.model ++ "\x27 is downloaded."))))))
  | .otherError e =>
      (r, "An unexpected error occurred during the API call: " ++ e)

/-- The synthesized user prompt built by `start_interview`. -/
def startUserPrompt (role : String) : String :=
  "Begin the mock interview for the role: " ++
    (role ++ ". Start with a greeting and your first question.")

/-- `AIRecruiter.start_interview`: appends the synthesized user turn, then
requests a completion. -/
def AIRecruiter.start_interview (r : AIRecruiter) (role : String)
    (o : HostOutcome) : AIRecruiter × String :=
  let r1 : AIRecruiter :=
    { r with conversation_history :=
        r.conversation_history ++ [⟨MsgRole.user, startUserPrompt role⟩] }
  r1.getResponse o

/-- The fixed guidance string returned on a blank candidate reply. -/
def promptForInputMessage : String :=
  "Please provide a response before continuing the interview."

/-- Python `not s.strip()`: true iff every character is whitespace, i.e.
iff the stripped string is empty (falsy). -/
def pyIsBlank (s : String) : Bool :=
  s.data.all (fun c => c.isWhitespace)

/-- `AIRecruiter.continue_interview`: on a blank reply returns the fixed
guidance string without contacting the host; otherwise appends the candidate
turn and requests a completion. -/
def AIRecruiter.continue_interview (r : AIRecruiter)
    (candidate_reply : String) (o : HostOutcome) : AIRecruiter × String :=
  if pyIsBlank candidate_reply then
    (r, promptForInputMessage)
  else
    let r1 : AIRecruiter :=
      { r with conversation_history :=
          r.conversation_history ++ [⟨MsgRole.user, candidate_reply⟩] }
    r1.getResponse o

example :
    ((AIRecruiter.init CONFIG_OLLAMA_HOST CONFIG_MODEL_NAME).start_interview
      "Dev" (HostOutcome.success "Hi")).1.conversation_history =
    [systemMessage, ⟨MsgRole.user, startUserPrompt "Dev"⟩,
     ⟨MsgRole.assistant, "Hi"⟩] := rfl

/-- Does `hay` start with `needle` (character lists)? -/
def startsWithSeg : List Char → List Char → Bool
  | [], _ => true
  | _ :: _, [] => false
  | a :: as, b :: bs => a == b && startsWithSeg as bs

/-- Does `needle` occur as a contiguous segment of `hay` (character lists)? -/
def hasSeg (needle : List Char) : List Char → Bool
  | [] => needle.isEmpty
  | c :: rest => startsWithSeg needle (c :: rest) || hasSeg needle rest

/-- Python `needle in hay` on strings. -/
def pyIn (needle hay : String) : Bool :=
  hasSeg needle.data hay.data

/-- Python `s.lower()` (ASCII case folding, as `Char.toLower`). -/
def pyLower (s : String) : String :=
  String.mk (s.data.map Char.toLower)

example : pyIn "error" (pyLower "An ERROR occurred") = true := by decide
example : pyIn "error" (pyLower "all fine") = false := by decide

/-- The in-memory `session_store` dict of main.py, as an association list in
insertion order with unique keys. -/
abbrev SessionStore : Type := List (String × AIRecruiter)

/-- Python `session_store.get(sid)` / `sid in session_store`: first (unique)
binding of the key. -/
def lookupSession : SessionStore → String → Option AIRecruiter
  | [], _ => none
  | (k, v) :: rest, sid => if k = sid then some v else lookupSession rest sid

/-- Python `del session_store[sid]`: drop every binding of the key. -/
def removeSession : SessionStore → String → SessionStore
  | [], _ => []
  | p :: rest, sid =>
      if p.1 = sid then removeSession rest sid
      else p :: removeSession rest sid

/-- Overwrite the value bound to a present key in place (the effect of
mutating the recruiter object stored in the dict). -/
def updateSession : SessionStore → String → AIRecruiter → SessionStore
  | [], _, _ => []
  | (k, v) :: rest, sid, r =>
      if k = sid then (k, r) :: updateSession rest sid r
      else (k, v) :: updateSession rest sid r

/-- Python `session_store[sid] = r`: overwrite in place when the key is
present, append otherwise. -/
def setSession (st : SessionStore) (sid : String) (r : AIRecruiter) :
    SessionStore :=
  if (lookupSession st sid).isSome then updateSession st sid r
  else st ++ [(sid, r)]

/-- Result of the `POST /interview/start` endpoint. -/
inductive StartResult where
  | created (session_id : String) (interviewer_reply : String)
  | serviceUnavailable (detail : String)
deriving DecidableEq, Repr

/-- Result of the `POST /interview/continue` endpoint. -/
inductive ContinueResult where
  | ok (session_id : String) (interviewer_reply : String)
  | notFound
  | serviceUnavailable (detail : String)
deriving DecidableEq, Repr

/-- Result of the `DELETE /interview/terminate/{session_id}` endpoint. -/
inductive TerminateResult where
  | noContent
  | notFound
deriving DecidableEq, Repr

/-- `start_interview_endpoint` of main.py.  `session_id` stands for the
freshly generated `uuid.uuid4()` string; `o` for the single host call made
by `recruiter.start_interview`. -/
def start_interview_endpoint (st : SessionStore) (session_id : String)
    (role model_name : String) (o : HostOutcome) :
    SessionStore × StartResult :=
  let recruiter := AIRecruiter.init CONFIG_OLLAMA_HOST model_name
  let p := recruiter.start_interview role o
  if pyIn "error" (pyLower p.2) then
    (st, StartResult.serviceUnavailable p.2)
  else
    (setSession st session_id p.1, StartResult.created session_id p.2)

/-- `continue_interview_endpoint` of main.py.  The recruiter object held in
the store is mutated in place, so its updated state is written back before
the error / conclusion checks run. -/
def continue_interview_endpoint (st : SessionStore)
    (session_id candidate_reply : String) (o : HostOutcome) :
    SessionStore × ContinueResult :=
  match lookupSession st session_id with
  | none => (st, ContinueResult.notFound)
  | some recruiter =>
      let p := recruiter.continue_interview candidate_reply o
      let st1 := updateSession st session_id p.1
      if pyIn "error" (pyLower p.2) then
        (st1, ContinueResult.serviceUnavailable p.2)
      else if pyIn "interview concluded" (pyLower p.2) ||
              pyIn "interview finished" (pyLower p.2) then
        (removeSession st1 session_id, ContinueResult.ok session_id p.2)
      else
        (st1, ContinueResult.ok session_id p.2)

/-- `terminate_interview_endpoint` of main.py. -/
def terminate_interview_endpoint (st : SessionStore) (session_id : String) :
    SessionStore × TerminateResult :=
  if (lookupSession st session_id).isSome then
    (removeSession st session_id, TerminateResult.noContent)
  else
    (st, TerminateResult.notFound)

/-- Body of the `GET /health` response. -/
structure HealthResponse where
  status : String
  service : String
  active_sessions : Nat
deriving DecidableEq, Repr

/-- `health_check` of main.py. -/
def health_check (st : SessionStore) : HealthResponse :=
  { status := "ok", service := "AI Recruiter API",
    active_sessions := st.length }

/-- One engine-level call: `start_interview` or `continue_interview`,
together with the outcome of the host call it may perform. -/
inductive Event where
  | startEv (role : String) (o : HostOutcome)
  | continueEv (candidate_reply : String) (o : HostOutcome)
deriving DecidableEq, Repr

/-- Apply one event to an engine, keeping the resulting state. -/
def stepEvent (r : AIRecruiter) : Event → AIRecruiter
  | .startEv role o => (r.start_interview role o).1
  | .continueEv s o => (r.continue_interview s o).1

/-- Run a sequence of engine calls. -/
def runEvents : AIRecruiter → List Event → AIRecruiter
  | r, [] => r
  | r, e :: es => runEvents (stepEvent r e) es

/-- An event whose host call succeeds with non-empty content. -/
def Event.isGood : Event → Bool
  | .startEv _ (.success c) => !(c == "")
  | .continueEv _ (.success c) => !(c == "")
  | _ => false

/-- Flip between the user and assistant roles. -/
def MsgRole.flipUA : MsgRole → MsgRole
  | .user => .assistant
  | _ => .user

/-- The turns strictly alternate roles, starting from `expected`. -/
def rolesAlternate : MsgRole → List Message → Bool
  | _, [] => true
  | expected, m :: rest =>
      (m.role == expected) && rolesAlternate expected.flipUA rest

/-- The first turn is the fixed system instruction. -/
def firstIsSystem : List Message → Bool
  | [] => false
  | m :: _ => m == systemMessage

/-- The invariant of claim C1: the first turn is the system instruction and the
turns after it strictly alternate user/assistant. -/
def historyInvariant : List Message → Bool
  | [] => false
  | m :: rest => rolesAlternate MsgRole.user rest && m == systemMessage

/-- Tails consisting of complete user/assistant exchange pairs. -/
inductive GoodTail : List Message → Prop
  | nil : GoodTail []
  | pair (u a : String) {rest : List Message} (h : GoodTail rest) :
      GoodTail (⟨MsgRole.user, u⟩ :: ⟨MsgRole.assistant, a⟩ :: rest)

theorem goodTail_append (u a : String) {rest : List Message}
    (h : GoodTail rest) :
    GoodTail (rest ++ [⟨MsgRole.user, u⟩, ⟨MsgRole.assistant, a⟩]) := by
  induction h with
  | nil => exact GoodTail.pair u a GoodTail.nil
  | pair u2 a2 h2 ih => exact GoodTail.pair u2 a2 ih

theorem goodTail_alternates {rest : List Message} (h : GoodTail rest) :
    rolesAlternate MsgRole.user rest = true := by
  induction h with
  | nil => rfl
  | pair u a h2 ih => simpa [rolesAlternate, MsgRole.flipUA] using ih

theorem getResponse_history (r : AIRecruiter) (o : HostOutcome) :
    ∃ t, ((r.getResponse o).1).conversation_history =
      r.conversation_history ++ t := by
  cases o with
  | success c =>
      by_cases hc : c = ""
      · exact ⟨[], by simp [AIRecruiter.getResponse, hc]⟩
      · exact ⟨[⟨MsgRole.assistant, c⟩],
          by simp [AIRecruiter.getResponse, hc]⟩
  | requestError e => exact ⟨[], by simp [AIRecruiter.getResponse]⟩
  | otherError e => exact ⟨[], by simp [AIRecruiter.getResponse]⟩

theorem stepEvent_history (r : AIRecruiter) (e : Event) :
    ∃ t, (stepEvent r e).conversation_history =
      r.conversation_history ++ t := by
  cases e with
  | startEv role o =>
      obtain ⟨t, ht⟩ := getResponse_history
        { r with conversation_history :=
            r.conversation_history ++ [⟨MsgRole.user, startUserPrompt role⟩] } o
      exact ⟨[⟨MsgRole.user, startUserPrompt role⟩] ++ t, by
        simpa [stepEvent, AIRecruiter.start_interview] using ht⟩
  | continueEv s o =>
      by_cases hs : pyIsBlank s = true
      · exact ⟨[], by simp [stepEvent, AIRecruiter.continue_interview, hs]⟩
      · obtain ⟨t, ht⟩ := getResponse_history
          { r with conversation_history :=
              r.conversation_history ++ [⟨MsgRole.user, s⟩] } o
        exact ⟨[⟨MsgRole.user, s⟩] ++ t, by
          simpa [stepEvent, AIRecruiter.continue_interview, hs] using ht⟩

theorem runEvents_head (m0 : Message) (rest : List Message)
    (r : AIRecruiter) (es : List Event)
    (h : r.conversation_history = m0 :: rest) :
    ∃ rest2, (runEvents r es).conversation_history = m0 :: rest2 := by
  induction es generalizing r rest with
  | nil => exact ⟨rest, h⟩
  | cons e es ih =>
      obtain ⟨t, ht⟩ := stepEvent_history r e
      exact ih (rest ++ t) (stepEvent r e) (by rw [ht, h]; rfl)

theorem runEvents_goodTail (es : List Event) (r : AIRecruiter)
    (hr : ∃ rest, r.conversation_history = systemMessage :: rest ∧
      GoodTail rest)
    (hg : ∀ e ∈ es, e.isGood = true) :
    ∃ rest, (runEvents r es).conversation_history = systemMessage :: rest ∧
      GoodTail rest := by
  induction es generalizing r with
  | nil => exact hr
  | cons e es ih =>
      refine ih (stepEvent r e) ?_ (fun e2 he2 => hg e2 (by simp [he2]))
      obtain ⟨rest, hh, hgt⟩ := hr
      have hge : e.isGood = true := hg e (by simp)
      cases e with
      | startEv role o =>
          cases o with
          | success c =>
              have hc : c ≠ "" := by simpa [Event.isGood] using hge
              refine ⟨rest ++ [⟨MsgRole.user, startUserPrompt role⟩,
                ⟨MsgRole.assistant, c⟩], ?_, goodTail_append _ _ hgt⟩
              simp [stepEvent, AIRecruiter.start_interview,
                AIRecruiter.getResponse, hc, hh]
          | requestError e2 => simp [Event.isGood] at hge
          | otherError e2 => simp [Event.isGood] at hge
      | continueEv s o =>
          cases o with
          | success c =>
              have hc : c ≠ "" := by simpa [Event.isGood] using hge
              by_cases hs : pyIsBlank s = true
              · exact ⟨rest,
                  by simp [stepEvent, AIRecruiter.continue_interview, hs, hh],
                  hgt⟩
              · refine ⟨rest ++ [⟨MsgRole.user, s⟩, ⟨MsgRole.assistant, c⟩],
                  ?_, goodTail_append _ _ hgt⟩
                simp [stepEvent, AIRecruiter.continue_interview, hs,
                  AIRecruiter.getResponse, hc, hh]
          | requestError e2 => simp [Event.isGood] at hge
          | otherError e2 => simp [Event.isGood] at hge

/-- C1 fails as stated: after a `start_interview` whose host call raises and
a `continue_interview` whose host call succeeds, the history holds two
adjacent user turns, so the turns after the system instruction do not
strictly alternate. -/
theorem C1_strict_alternation_counterexample :
    historyInvariant (runEvents
      (AIRecruiter.init CONFIG_OLLAMA_HOST CONFIG_MODEL_NAME)
      [Event.startEv "Backend Engineer"
         (HostOutcome.requestError "connection refused"),
       Event.continueEv "hello" (HostOutcome.success "ok")]
      ).conversation_history = false := by decide

/-- C1 amended: after any sequence of `start_interview` and
`continue_interview` calls the first turn is always the fixed system
instruction, and the turns after it strictly alternate user/assistant
provided every host call in the sequence succeeded with non-empty
content. -/
theorem C1_history_invariant (host model : String) (events : List Event) :
    firstIsSystem
      (runEvents (AIRecruiter.init host model) events).conversation_history
      = true ∧
    ((∀ e ∈ events, e.isGood = true) →
      historyInvariant
        (runEvents (AIRecruiter.init host model) events).conversation_history
        = true) := by
  constructor
  · obtain ⟨rest2, h2⟩ :=
      runEvents_head systemMessage [] (AIRecruiter.init host model) events rfl
    simp [firstIsSystem, h2]
  · intro hg
    obtain ⟨rest, hh, hgt⟩ := runEvents_goodTail events
      (AIRecruiter.init host model) ⟨[], rfl, GoodTail.nil⟩ hg
    simp [historyInvariant, hh, goodTail_alternates hgt]

/-- Witness for C1 amended at a concrete all-successful call sequence. -/
theorem C1_history_invariant_witness :
    firstIsSystem (runEvents
      (AIRecruiter.init CONFIG_OLLAMA_HOST CONFIG_MODEL_NAME)
      [Event.startEv "Dev" (HostOutcome.success "Hello candidate"),
       Event.continueEv "I am ready" (HostOutcome.success "First question")]
      ).conversation_history = true ∧
    historyInvariant (runEvents
      (AIRecruiter.init CONFIG_OLLAMA_HOST CONFIG_MODEL_NAME)
      [Event.startEv "Dev" (HostOutcome.success "Hello candidate"),
       Event.continueEv "I am ready" (HostOutcome.success "First question")]
      ).conversation_history = true :=
  ⟨(C1_history_invariant CONFIG_OLLAMA_HOST CONFIG_MODEL_NAME _).1,
   (C1_history_invariant CONFIG_OLLAMA_HOST CONFIG_MODEL_NAME _).2
     (by decide)⟩

/-- C4: on an empty or whitespace-only candidate reply,
`continue_interview` is independent of the host outcome (the host is never
contacted), returns the fixed guidance string, and leaves the engine state,
in particular its turn sequence, unchanged. -/
theorem C4_blank_reply_no_host_call (r : AIRecruiter)
    (candidate_reply : String) (o : HostOutcome)
    (h : pyIsBlank candidate_reply = true) :
    r.continue_interview candidate_reply o = (r, promptForInputMessage) := by
  simp [AIRecruiter.continue_interview, h]

/-- Witness for C4 at a whitespace-only reply and a failing host outcome. -/
theorem C4_blank_reply_no_host_call_witness :
    (AIRecruiter.init CONFIG_OLLAMA_HOST CONFIG_MODEL_NAME).continue_interview
      "   " (HostOutcome.requestError "down") =
    (AIRecruiter.init CONFIG_OLLAMA_HOST CONFIG_MODEL_NAME,
     promptForInputMessage) :=
  C4_blank_reply_no_host_call _ _ _ (by decide)

theorem lookup_removeSession_self (st : SessionStore) (sid : String) :
    lookupSession (removeSession st sid) sid = none := by
  induction st with
  | nil => rfl
  | cons p rest ih =>
      obtain ⟨k, v⟩ := p
      by_cases hk : k = sid
      · simpa [removeSession, hk] using ih
      · simpa [removeSession, lookupSession, hk] using ih

theorem removeSession_absent (st : SessionStore) (sid : String)
    (h : lookupSession st sid = none) : removeSession st sid = st := by
  induction st with
  | nil => rfl
  | cons p rest ih =>
      obtain ⟨k, v⟩ := p
      by_cases hk : k = sid
      · simp [lookupSession, hk] at h
      · simp [lookupSession, hk] at h
        simp [removeSession, hk, ih h]

theorem lookup_append_fresh (st : SessionStore) (sid : String)
    (r : AIRecruiter) (h : lookupSession st sid = none) :
    lookupSession (st ++ [(sid, r)]) sid = some r := by
  induction st with
  | nil => simp [lookupSession]
  | cons p rest ih =>
      obtain ⟨k, v⟩ := p
      by_cases hk : k = sid
      · simp [lookupSession, hk] at h
      · simp [lookupSession, hk] at h ⊢
        exact ih h

theorem lookup_updateSession (st : SessionStore) (sid : String)
    (r r2 : AIRecruiter) (h : lookupSession st sid = some r) :
    lookupSession (updateSession st sid r2) sid = some r2 := by
  induction st with
  | nil => simp [lookupSession] at h
  | cons p rest ih =>
      obtain ⟨k, v⟩ := p
      by_cases hk : k = sid
      · subst hk
        simp [updateSession, lookupSession]
      · simp [updateSession, lookupSession, hk] at h ⊢
        exact ih h

/-- C7: terminate is an idempotent delete.  On a stored id it removes the
entry and reports 204, and a second terminate on the same id reports 404;
on an absent id it reports 404 and leaves the registry unchanged. -/
theorem C7_terminate_idempotent (st : SessionStore) (sid : String) :
    ((lookupSession st sid).isSome = true →
      terminate_interview_endpoint st sid =
        (removeSession st sid, TerminateResult.noContent) ∧
      terminate_interview_endpoint
          (terminate_interview_endpoint st sid).1 sid =
        ((terminate_interview_endpoint st sid).1,
         TerminateResult.notFound)) ∧
    (lookupSession st sid = none →
      terminate_interview_endpoint st sid = (st, TerminateResult.notFound)) := by
  constructor
  · intro h
    have h1 : terminate_interview_endpoint st sid =
        (removeSession st sid, TerminateResult.noContent) := by
      simp [terminate_interview_endpoint, h]
    refine ⟨h1, ?_⟩
    rw [h1]
    simp [terminate_interview_endpoint, lookup_removeSession_self]
  · intro h
    simp [terminate_interview_endpoint, h]

/-- Witness for C7 at a concrete one-session registry. -/
theorem C7_terminate_idempotent_witness :
    terminate_interview_endpoint
        [("s1", AIRecruiter.init CONFIG_OLLAMA_HOST CONFIG_MODEL_NAME)] "s1" =
      (removeSession
        [("s1", AIRecruiter.init CONFIG_OLLAMA_HOST CONFIG_MODEL_NAME)] "s1",
       TerminateResult.noContent) ∧
    terminate_interview_endpoint
        (terminate_interview_endpoint
          [("s1", AIRecruiter.init CONFIG_OLLAMA_HOST CONFIG_MODEL_NAME)]
          "s1").1 "s1" =
      ((terminate_interview_endpoint
          [("s1", AIRecruiter.init CONFIG_OLLAMA_HOST CONFIG_MODEL_NAME)]
          "s1").1,
       TerminateResult.notFound) :=
  (C7_terminate_idempotent _ _).1 (by decide)

/-- C8: the health check always reports status "ok" and the number of
sessions currently stored in the registry. -/
theorem C8_health_check (st : SessionStore) :
    (health_check st).status = "ok" ∧
    (health_check st).active_sessions = st.length :=
  ⟨rfl, rfl⟩

theorem startsWithSeg_append (n : List Char) (l s : List Char)
    (h : startsWithSeg n l = true) : startsWithSeg n (l ++ s) = true := by
  induction n generalizing l with
  | nil => rfl
  | cons a as ih =>
      cases l with
      | nil => simp [startsWithSeg] at h
      | cons b bs =>
          simp [startsWithSeg] at h ⊢
          exact ⟨h.1, ih bs h.2⟩

theorem hasSeg_nil_needle (l : List Char) : hasSeg [] l = true := by
  cases l <;> simp [hasSeg, startsWithSeg, List.isEmpty]

theorem hasSeg_append_left (n p s : List Char)
    (h : hasSeg n p = true) : hasSeg n (p ++ s) = true := by
  induction p with
  | nil =>
      have hn : n = [] := by
        cases n with
        | nil => rfl
        | cons a as => simp [hasSeg, List.isEmpty] at h
      subst hn
      exact hasSeg_nil_needle s
  | cons c rest ih =>
      simp only [hasSeg, Bool.or_eq_true] at h ⊢
      cases h with
      | inl h1 => exact Or.inl (startsWithSeg_append n (c :: rest) s h1)
      | inr h2 => exact Or.inr (ih h2)

theorem pyIn_pyLower_append (needle p s : String)
    (h : pyIn needle (pyLower p) = true) :
    pyIn needle (pyLower (p ++ s)) = true := by
  have h2 : hasSeg needle.data (p.data.map Char.toLower) = true := h
  have h3 : hasSeg needle.data
      (p.data.map Char.toLower ++ s.data.map Char.toLower) = true :=
    hasSeg_append_left _ _ _ h2
  show hasSeg needle.data ((p ++ s).data.map Char.toLower) = true
  rw [String.data_append, List.map_append]
  exact h3

/-- C6: every failed host call (connection error, model not found, generic
exception, or empty/malformed response content) makes `_get_response` return
a reply containing the substring "error" under case-insensitive
comparison. -/
theorem C6_failure_reply_contains_error (r : AIRecruiter) (o : HostOutcome)
    (h : o.isFailure = true) :
    pyIn "error" (pyLower (r.getResponse o).2) = true := by
  cases o with
  | success c =>
      have hc : c = "" := by simpa [HostOutcome.isFailure] using h
      subst hc
      simp only [AIRecruiter.getResponse, ne_eq, not_true_eq_false,
        if_false, reduceIte]
      decide
  | requestError e =>
      show pyIn "error" (pyLower
        ("Error connecting to Ollama or processing request: " ++
          (e ++ (". Please ensure Ollama is running at " ++
          (r.host ++ (" and the model \x27" ++
          (r.model ++ "\x27 is downloaded."))))))) = true
      exact pyIn_pyLower_append "error"
        "Error connecting to Ollama or processing request: " _ (by decide)
  | otherError e =>
      show pyIn "error" (pyLower
        ("An unexpected error occurred during the API call: " ++ e)) = true
      exact pyIn_pyLower_append "error"
        "An unexpected error occurred during the API call: " _ (by decide)

/-- Witness for C6 at a concrete connection failure. -/
theorem C6_failure_reply_contains_error_witness :
    pyIn "error" (pyLower
      ((AIRecruiter.init CONFIG_OLLAMA_HOST CONFIG_MODEL_NAME).getResponse
        (HostOutcome.requestError "connection refused")).2) = true :=
  C6_failure_reply_contains_error _ _ (by decide)

/-- C10: `_get_response` appends an assistant turn only on non-empty host
content, and on every error path it returns the error string with the
engine state, in particular the conversation history, unchanged. -/
theorem C10_error_replies_not_recorded (r : AIRecruiter) (o : HostOutcome) :
    (o.isFailure = true → (r.getResponse o).1 = r) ∧
    (∀ c, o = HostOutcome.success c → c ≠ "" →
      (r.getResponse o).1 =
        { r with conversation_history :=
            r.conversation_history ++ [⟨MsgRole.assistant, c⟩] } ∧
      (r.getResponse o).2 = c) := by
  constructor
  · intro h
    cases o with
    | success c =>
        have hc : c = "" := by simpa [HostOutcome.isFailure] using h
        subst hc
        simp [AIRecruiter.getResponse]
    | requestError e => rfl
    | otherError e => rfl
  · intro c hoc hc
    subst hoc
    simp [AIRecruiter.getResponse, hc]

/-- Witness for C10: a failing call leaves the history unchanged, a
successful one appends exactly the assistant turn. -/
theorem C10_error_replies_not_recorded_witness :
    ((AIRecruiter.init CONFIG_OLLAMA_HOST CONFIG_MODEL_NAME).getResponse
      (HostOutcome.otherError "boom")).1 =
      AIRecruiter.init CONFIG_OLLAMA_HOST CONFIG_MODEL_NAME ∧
    ((AIRecruiter.init CONFIG_OLLAMA_HOST CONFIG_MODEL_NAME).getResponse
      (HostOutcome.success "Hi")).1 =
      { AIRecruiter.init CONFIG_OLLAMA_HOST CONFIG_MODEL_NAME with
        conversation_history :=
          (AIRecruiter.init CONFIG_OLLAMA_HOST
            CONFIG_MODEL_NAME).conversation_history ++
          [⟨MsgRole.assistant, "Hi"⟩] } ∧
    ((AIRecruiter.init CONFIG_OLLAMA_HOST CONFIG_MODEL_NAME).getResponse
      (HostOutcome.success "Hi")).2 = "Hi" :=
  ⟨(C10_error_replies_not_recorded _ _).1 (by decide),
   (C10_error_replies_not_recorded _ (HostOutcome.success "Hi")).2 "Hi" rfl
     (by decide)⟩

/-- The engine state produced by a successful `start_interview` on a fresh
engine: exactly three turns, in order system / synthesized user / assistant. -/
theorem start_interview_success_state (model role c : String) (hc : c ≠ "") :
    (AIRecruiter.init CONFIG_OLLAMA_HOST model).start_interview role
      (HostOutcome.success c) =
    (⟨CONFIG_OLLAMA_HOST, model,
      [systemMessage, ⟨MsgRole.user, startUserPrompt role⟩,
       ⟨MsgRole.assistant, c⟩]⟩, c) := by
  simp [AIRecruiter.init, AIRecruiter.start_interview,
    AIRecruiter.getResponse, hc]

/-- C2: a successful `start`, a host reply that is non-empty and passes the
error-substring convention, returns that non-empty reply with 201 and stores
(under the fresh id) a session whose turn sequence has exactly 3 entries in
order: system instruction, synthesized start user turn, assistant turn. -/
theorem C2_start_stores_three_turns (st : SessionStore)
    (sid role model c : String) (hc : c ≠ "")
    (he : pyIn "error" (pyLower c) = false)
    (hfresh : lookupSession st sid = none) :
    start_interview_endpoint st sid role model (HostOutcome.success c) =
      (st ++ [(sid, ⟨CONFIG_OLLAMA_HOST, model,
        [systemMessage, ⟨MsgRole.user, startUserPrompt role⟩,
         ⟨MsgRole.assistant, c⟩]⟩)],
       StartResult.created sid c) ∧
    lookupSession
      (start_interview_endpoint st sid role model (HostOutcome.success c)).1
      sid =
      some ⟨CONFIG_OLLAMA_HOST, model,
        [systemMessage, ⟨MsgRole.user, startUserPrompt role⟩,
         ⟨MsgRole.assistant, c⟩]⟩ := by
  have h1 : start_interview_endpoint st sid role model
      (HostOutcome.success c) =
      (st ++ [(sid, ⟨CONFIG_OLLAMA_HOST, model,
        [systemMessage, ⟨MsgRole.user, startUserPrompt role⟩,
         ⟨MsgRole.assistant, c⟩]⟩)],
       StartResult.created sid c) := by
    simp [start_interview_endpoint, start_interview_success_state model role c hc,
      he, setSession, hfresh]
  refine ⟨h1, ?_⟩
  rw [h1]
  exact lookup_append_fresh st sid _ hfresh

/-- Witness for C2 on an empty registry and a concrete greeting reply. -/
theorem C2_start_stores_three_turns_witness :
    start_interview_endpoint [] "s2" "Backend Engineer" "llama3.1"
      (HostOutcome.success "Welcome! Tell me about yourself.") =
      ([("s2", ⟨CONFIG_OLLAMA_HOST, "llama3.1",
        [systemMessage,
         ⟨MsgRole.user, startUserPrompt "Backend Engineer"⟩,
         ⟨MsgRole.assistant, "Welcome! Tell me about yourself."⟩]⟩)],
       StartResult.created "s2" "Welcome! Tell me about yourself.") ∧
    lookupSession
      (start_interview_endpoint [] "s2" "Backend Engineer" "llama3.1"
        (HostOutcome.success "Welcome! Tell me about yourself.")).1 "s2" =
      some ⟨CONFIG_OLLAMA_HOST, "llama3.1",
        [systemMessage,
         ⟨MsgRole.user, startUserPrompt "Backend Engineer"⟩,
         ⟨MsgRole.assistant, "Welcome! Tell me about yourself."⟩]⟩ :=
  C2_start_stores_three_turns [] "s2" "Backend Engineer" "llama3.1"
    "Welcome! Tell me about yourself." (by decide) (by decide) rfl

/-- C5: if the reply of the engine start call signals an error (per the
error-substring convention), the new session is not stored — the registry is
returned unchanged — and a 503 carrying that reply is raised; otherwise the
started engine is stored under the freshly generated id, which is returned
with 201 together with the initial reply. -/
theorem C5_start_error_not_stored (st : SessionStore)
    (sid role model : String) (o : HostOutcome) :
    (pyIn "error" (pyLower
        ((AIRecruiter.init CONFIG_OLLAMA_HOST model).start_interview role
          o).2) = true →
      start_interview_endpoint st sid role model o =
        (st, StartResult.serviceUnavailable
          ((AIRecruiter.init CONFIG_OLLAMA_HOST model).start_interview role
            o).2)) ∧
    (pyIn "error" (pyLower
        ((AIRecruiter.init CONFIG_OLLAMA_HOST model).start_interview role
          o).2) = false →
      start_interview_endpoint st sid role model o =
        (setSession st sid
          ((AIRecruiter.init CONFIG_OLLAMA_HOST model).start_interview role
            o).1,
         StartResult.created sid
          ((AIRecruiter.init CONFIG_OLLAMA_HOST model).start_interview role
            o).2) ∧
      (lookupSession st sid = none →
        lookupSession (start_interview_endpoint st sid role model o).1 sid =
          some ((AIRecruiter.init CONFIG_OLLAMA_HOST model).start_interview
            role o).1)) := by
  constructor
  · intro h
    simp [start_interview_endpoint, h]
  · intro h
    have h1 : start_interview_endpoint st sid role model o =
        (setSession st sid
          ((AIRecruiter.init CONFIG_OLLAMA_HOST model).start_interview role
            o).1,
         StartResult.created sid
          ((AIRecruiter.init CONFIG_OLLAMA_HOST model).start_interview role
            o).2) := by
      simp [start_interview_endpoint, h]
    refine ⟨h1, fun hfresh => ?_⟩
    rw [h1]
    simp [setSession, hfresh, lookup_append_fresh st sid _ hfresh]

/-- Witness for C5: an unreachable host on start leaves the registry
unchanged and surfaces a 503 carrying the error reply. -/
theorem C5_start_error_not_stored_witness :
    start_interview_endpoint [] "s5" "Data Scientist" "llama3.1"
      (HostOutcome.requestError "connection refused") =
      ([], StartResult.serviceUnavailable
        ((AIRecruiter.init CONFIG_OLLAMA_HOST "llama3.1").start_interview
          "Data Scientist" (HostOutcome.requestError "connection refused")).2) :=
  (C5_start_error_not_stored [] "s5" "Data Scientist" "llama3.1"
    (HostOutcome.requestError "connection refused")).1 (by decide)

/-- C3 fails as stated: a continue reply matching /interview concluded/i
that also contains "error" hits the 503 branch first, so the session stays
in the registry and the next lookup still finds it. -/
theorem C3_conclusion_removal_counterexample :
    pyIn "interview concluded"
      (pyLower "Error: interview concluded unexpectedly.") = true ∧
    (lookupSession
      (continue_interview_endpoint
        [("s3", AIRecruiter.init CONFIG_OLLAMA_HOST CONFIG_MODEL_NAME)]
        "s3" "I am done"
        (HostOutcome.success "Error: interview concluded unexpectedly.")).1
      "s3").isSome = true := by
  constructor
  · decide
  · decide

/-- C3 amended: for every stored session, a continue reply that matches
/interview concluded/i or /interview finished/i and does not contain
"error" (case-insensitive) makes the endpoint remove the registry entry of
that session before returning, so the id is absent on the next lookup. -/
theorem C3_conclusion_removes_session (st : SessionStore)
    (sid cand : String) (o : HostOutcome) (r : AIRecruiter)
    (hl : lookupSession st sid = some r)
    (he : pyIn "error" (pyLower (r.continue_interview cand o).2) = false)
    (hcc : (pyIn "interview concluded"
              (pyLower (r.continue_interview cand o).2) ||
            pyIn "interview finished"
              (pyLower (r.continue_interview cand o).2)) = true) :
    lookupSession (continue_interview_endpoint st sid cand o).1 sid =
      none := by
  simp [continue_interview_endpoint, hl, he, hcc,
    lookup_removeSession_self]

/-- Witness for C3 amended: a clean concluding reply removes the session. -/
theorem C3_conclusion_removes_session_witness :
    lookupSession
      (continue_interview_endpoint
        [("s3w", AIRecruiter.init CONFIG_OLLAMA_HOST CONFIG_MODEL_NAME)]
        "s3w" "Thank you, I am finished"
        (HostOutcome.success "Thank you for your time. Interview concluded.")).1
      "s3w" = none :=
  C3_conclusion_removes_session _ _ _ _ _ rfl (by decide) (by decide)

/-- C9: in the continue endpoint the error-substring check runs before the
conclusion check: whenever the produced reply contains "error"
(case-insensitive) the endpoint answers 503 with that reply and the session,
with its mutated engine, stays in the registry — even if the reply also
matches a conclusion phrase. -/
theorem C9_error_check_takes_priority (st : SessionStore)
    (sid cand : String) (o : HostOutcome) (r : AIRecruiter)
    (hl : lookupSession st sid = some r)
    (he : pyIn "error" (pyLower (r.continue_interview cand o).2) = true) :
    continue_interview_endpoint st sid cand o =
      (updateSession st sid (r.continue_interview cand o).1,
       ContinueResult.serviceUnavailable (r.continue_interview cand o).2) ∧
    (lookupSession (continue_interview_endpoint st sid cand o).1
      sid).isSome = true := by
  have h1 : continue_interview_endpoint st sid cand o =
      (updateSession st sid (r.continue_interview cand o).1,
       ContinueResult.serviceUnavailable (r.continue_interview cand o).2) := by
    simp [continue_interview_endpoint, hl, he]
  refine ⟨h1, ?_⟩
  rw [h1]
  simp [lookup_updateSession st sid r _ hl]

/-- Witness for C9 at a reply containing both "error" and a conclusion
phrase: the endpoint answers 503 and the session remains stored. -/
theorem C9_error_check_takes_priority_witness :
    continue_interview_endpoint
      [("s9", AIRecruiter.init CONFIG_OLLAMA_HOST CONFIG_MODEL_NAME)]
      "s9" "bye" (HostOutcome.success "Error, but interview concluded.") =
      (updateSession
        [("s9", AIRecruiter.init CONFIG_OLLAMA_HOST CONFIG_MODEL_NAME)]
        "s9"
        ((AIRecruiter.init CONFIG_OLLAMA_HOST
          CONFIG_MODEL_NAME).continue_interview "bye"
          (HostOutcome.success "Error, but interview concluded.")).1,
       ContinueResult.serviceUnavailable
        ((AIRecruiter.init CONFIG_OLLAMA_HOST
          CONFIG_MODEL_NAME).continue_interview "bye"
          (HostOutcome.success "Error, but interview concluded.")).2) ∧
    (lookupSession
      (continue_interview_endpoint
        [("s9", AIRecruiter.init CONFIG_OLLAMA_HOST CONFIG_MODEL_NAME)]
        "s9" "bye"
        (HostOutcome.success "Error, but interview concluded.")).1
      "s9").isSome = true :=
  C9_error_check_takes_priority _ _ _ _ _ rfl (by decide)
